import Mathlib

/-!
Verification development for the Status_Tracker repository (src/server.js).

The repository is several redundant drafts of one presence-monitoring
service.  The core is the presence-change detection and notification
pipeline: a polling loop samples a presence API, a confirmation step
debounces flicker, confirmed transitions are appended to a persistent
status history and announced through a rate-limited message sender.

This file is a shallow embedding of that core:
  * `fetchStatus` / `personastateToStatus` model the mapping from the raw
    API response to the ONLINE/OFFLINE status (server.js lines 153-158).
  * `monitorStatusTick` models one tick of the confirmation-variant
    `monitorStatus` (server.js lines 151-186): two samples two seconds
    apart, a transition recorded only when both agree and differ from
    `lastKnownStatus`.  Network and persistence failures are modelled as
    explicit inputs; the surrounding try/catch is modelled by the
    function being total and returning the unchanged state with a log
    event.
  * `monitorUserTick` models the per-user body of the multi-user
    `monitorStatus` variant (server.js lines 442-469).
  * `monitorStatusSingleTick` models the single-sample `monitorStatus`
    variant (server.js lines 684-706).
  * `sendTelegramMessage` / `sendTelegramMessageNoGate` model the two
    variants of the rate limiter (server.js lines 416-427 and 71-82; in
    the latter the cooldown check is commented out in the source).
  * `startMonitoring` / `stopMonitoring` model the scheduler control
    (server.js lines 190-203), with `intervals` counting the live
    polling loops created by setInterval and cancelled by clearInterval.

Effects are made observable as an ordered `Event` trace: the list order
is the program order in which the side effects are initiated.
-/

namespace StatusTracker

/-- The coarse presence status used throughout server.js. -/
inductive Status where
  | online
  | offline
  deriving DecidableEq, Repr

/-- One player record of the GetPlayerSummaries response; only the
`personastate` field is read by the monitor. -/
structure SteamPlayer where
  personastate : Nat
  deriving DecidableEq, Repr

/-- The part of the GetPlayerSummaries response the monitor reads:
`response.data?.response?.players`. -/
structure SteamResponse where
  players : List SteamPlayer
  deriving DecidableEq, Repr

/-- The raw-code-to-status mapping used by every draft:
`player.personastate === 1 ? 'online' : 'offline'`. -/
def personastateToStatus (personastate : Nat) : Status :=
  if personastate = 1 then .online else .offline

/-- The inner `fetchStatus` of the confirmation-variant `monitorStatus`
(server.js lines 153-158).  `none` models the axios call throwing
(network failure), which propagates to the caller's catch.  When the
call succeeds the source evaluates
`response.data?.response?.players?.[0]?.personastate === 1`, so a
response with no player record compares `undefined === 1` and yields
`'offline'`, not an absence. -/
def fetchStatus (resp : Option SteamResponse) : Except String Status :=
  match resp with
  | none => .error "axios error"
  | some r =>
    .ok (match r.players.head? with
      | some p => personastateToStatus p.personastate
      | none => .offline)

/-- One entry of the persisted `statusHistory` array. -/
structure HistoryEntry where
  status : Status
  date : String
  time : String
  deriving DecidableEq, Repr

/-- The persisted user record: `steamStatus` and `statusHistory`
(the mongoose User document). -/
structure UserRecord where
  steamStatus : Status
  statusHistory : List HistoryEntry
  deriving DecidableEq, Repr

/-- Observable side effects of one tick, in program order:
`notify` is a call of sendTelegramMessage, `ledgerWrite` a successful
database update of steamStatus plus statusHistory, `log` a console
error report from a catch branch. -/
inductive Event where
  | notify (msg : String)
  | ledgerWrite (status : Status)
  | log (msg : String)
  deriving DecidableEq, Repr

/-- Message sent by the confirmation variant on going offline. -/
def offlineMessage : String := "Jaa rahi hu me OFFLINE\naye bade😤"

/-- Message sent by the confirmation variant on coming online. -/
def onlineMessage : String := "Aa gyi ONLINE\nTumhare sath nhi khelungi\naye bade😤"

/-- Log text of the catch branch of `monitorStatus`. -/
def monitorErrorLog : String := "Error monitoring status"

/-- In-memory monitor state of the confirmation variant: the module
global `lastKnownStatus` (null before the first confirmed transition)
and the persisted user record. -/
structure MonState where
  lastKnownStatus : Option Status
  user : UserRecord
  deriving DecidableEq, Repr

/-- Environment of one polling tick: the two sample responses (taken
2000 ms apart; `none` means the network call threw), the date and time
strings `getCurrentDateTime` returns inside the tick, and whether the
database write succeeds (`false` means `findOneAndUpdate` throws). -/
structure TickInput where
  first : Option SteamResponse
  second : Option SteamResponse
  date : String
  time : String
  dbOk : Bool
  deriving DecidableEq, Repr

/-- One tick of the confirmation-variant `monitorStatus` (server.js
lines 151-186).  Samples twice; if both agree and differ from
`lastKnownStatus`, it first advances `lastKnownStatus`, then calls
`sendTelegramMessage`, then performs the database update (steamStatus
plus a `$push` onto statusHistory).  Any thrown error is caught and
logged; note that a failed database write leaves `lastKnownStatus`
already advanced while the user record is unchanged. -/
def monitorStatusTick (st : MonState) (inp : TickInput) : MonState × List Event :=
  match fetchStatus inp.first with
  | .error _ => (st, [.log monitorErrorLog])
  | .ok firstCheck =>
    match fetchStatus inp.second with
    | .error _ => (st, [.log monitorErrorLog])
    | .ok secondCheck =>
      if firstCheck = secondCheck ∧ st.lastKnownStatus ≠ some firstCheck then
        let msg := if firstCheck = .offline then offlineMessage else onlineMessage
        if inp.dbOk then
          (⟨some firstCheck,
            ⟨firstCheck, st.user.statusHistory ++ [⟨firstCheck, inp.date, inp.time⟩]⟩⟩,
           [.notify msg, .ledgerWrite firstCheck])
        else
          (⟨some firstCheck, st.user⟩, [.notify msg, .log monitorErrorLog])
      else
        (st, [])

/-- A run of the polling loop: the ticks in scheduling order, with the
event traces concatenated in program order. -/
def runTicks (st : MonState) (ticks : List TickInput) : MonState × List Event :=
  match ticks with
  | [] => (st, [])
  | t :: rest =>
    let step := monitorStatusTick st t
    let next := runTicks step.1 rest
    (next.1, step.2 ++ next.2)

/-- State of the notification rate limiter: the module global
`lastMessageTime` (milliseconds, initially 0). -/
structure GateState where
  lastMessageTime : Int
  deriving DecidableEq, Repr

/-- The cooldown constant `COOLDOWN = 30 * 1000` of server.js. -/
def COOLDOWN : Int := 30 * 1000

/-- The rate-limited `sendTelegramMessage` (server.js lines 416-427 and
622-635): if `now - lastMessageTime < COOLDOWN` the message is dropped
(returns false) and `lastMessageTime` is not updated; otherwise
`lastMessageTime` is set to `now` and the message is dispatched.  The
returned Bool is whether the dispatch was attempted. -/
def sendTelegramMessage (g : GateState) (now : Int) : GateState × Bool :=
  if now - g.lastMessageTime < COOLDOWN then (g, false)
  else (⟨now⟩, true)

/-- The `sendTelegramMessage` of the confirmation-variant draft
(server.js lines 71-82): the cooldown check is commented out in the
source, so every call sets `lastMessageTime` and dispatches. -/
def sendTelegramMessageNoGate (_g : GateState) (now : Int) : GateState × Bool :=
  (⟨now⟩, true)

/-- A burst of send attempts at the given timestamps through the
rate-limited sender; returns the timestamps whose dispatch was
attempted, in order. -/
def runSends (g : GateState) (times : List Int) : GateState × List Int :=
  match times with
  | [] => (g, [])
  | t :: rest =>
    let step := sendTelegramMessage g t
    let next := runSends step.1 rest
    (next.1, if step.2 then t :: next.2 else next.2)

/-- The same burst through the ungated variant of lines 71-82. -/
def runSendsNoGate (g : GateState) (times : List Int) : GateState × List Int :=
  match times with
  | [] => (g, [])
  | t :: rest =>
    let step := sendTelegramMessageNoGate g t
    let next := runSendsNoGate step.1 rest
    (next.1, if step.2 then t :: next.2 else next.2)

/-- Uppercased status text used in the multi-user draft's message
(`steamStatus.toUpperCase()`). -/
def statusUpper (s : Status) : String :=
  match s with
  | .online => "ONLINE"
  | .offline => "OFFLINE"

/-- The multi-user draft's notification text (server.js line 463). -/
def userTransitionMessage (username : String) (s : Status) (date time : String) : String :=
  "🔵 *" ++ username ++ "* is now *" ++ statusUpper s ++ "* at " ++ date ++ " " ++ time

/-- Per-user body of the multi-user `monitorStatus` variant (server.js
lines 442-469).  `resp = none` models `fetchWithRetry` exhausting its
retries and throwing (caught by the per-user catch); a response with no
player record hits `if (!player) continue`.  On a detected change the
history entry is pushed and `steamStatus` set, then `user.save()` is
awaited: only after the save succeeds is `sendTelegramMessage` called.
A failed save throws before the send; the mutated in-memory document is
discarded (the next tick re-reads from the database), so the persisted
record is returned unchanged. -/
def monitorUserTick (user : UserRecord) (username : String) (resp : Option SteamResponse)
    (date time : String) (dbOk : Bool) : UserRecord × List Event :=
  match resp with
  | none => (user, [.log monitorErrorLog])
  | some r =>
    match r.players.head? with
    | none => (user, [])
    | some p =>
      let steamStatus := personastateToStatus p.personastate
      if user.steamStatus ≠ steamStatus then
        if dbOk then
          (⟨steamStatus, user.statusHistory ++ [⟨steamStatus, date, time⟩]⟩,
           [.ledgerWrite steamStatus,
            .notify (userTransitionMessage username steamStatus date time)])
        else
          (user, [.log monitorErrorLog])
      else
        (user, [])

/-- Notification text of the single-sample draft (server.js lines
697-699). -/
def singleDraftMessage (s : Status) : String :=
  match s with
  | .offline => "jaa rahi hu me OFFLINE, aye bade😤"
  | .online => "Aa gyi ONLINE, Tumhare sath nhi khelungi, aye bade😤"

/-- The single-sample `monitorStatus` variant (server.js lines 684-706):
one sample per tick, `if (!player) return;` skips the tick when the
response has no player record, no database access. -/
def monitorStatusSingleTick (lastKnownStatus : Option Status) (resp : Option SteamResponse) :
    Option Status × List Event :=
  match resp with
  | none => (lastKnownStatus, [.log monitorErrorLog])
  | some r =>
    match r.players.head? with
    | none => (lastKnownStatus, [])
    | some p =>
      let steamStatus := personastateToStatus p.personastate
      if lastKnownStatus ≠ some steamStatus then
        (some steamStatus, [.notify (singleDraftMessage steamStatus)])
      else
        (lastKnownStatus, [])

/-- Scheduler state: the module globals `isMonitoringActive` and the
interval handle, abstracted as the number of live polling loops
(`setInterval` creates one, `clearInterval` on the stored handle
removes it). -/
structure SchedState where
  isMonitoringActive : Bool
  intervals : Nat
  deriving DecidableEq, Repr

/-- `stopMonitoring` (server.js lines 198-203): a no-op when not
active, otherwise clears the stored interval and marks inactive. -/
def stopMonitoring (s : SchedState) : SchedState :=
  if s.isMonitoringActive then ⟨false, s.intervals - 1⟩ else s

/-- `startMonitoring` (server.js lines 190-196): returns immediately
when already active; otherwise calls `stopMonitoring` (a no-op at that
point), schedules a new polling interval and marks active. -/
def startMonitoring (s : SchedState) : SchedState :=
  if s.isMonitoringActive then s
  else
    let s1 := stopMonitoring s
    ⟨true, s1.intervals + 1⟩

/-- The whole process state a polling tick can see: the scheduler
globals and the monitor state.  `monitorStatus` never touches the
scheduler globals. -/
structure ServerState where
  sched : SchedState
  mon : MonState
  deriving DecidableEq, Repr

/-- One scheduled firing of the confirmation-variant `monitorStatus`
inside the running process: the tick body acts on the monitor state
only, and its catch swallows every error, so the function is total and
the scheduler fields pass through unchanged. -/
def serverTick (s : ServerState) (inp : TickInput) : ServerState × List Event :=
  (⟨s.sched, (monitorStatusTick s.mon inp).1⟩, (monitorStatusTick s.mon inp).2)

/-- True on notification events. -/
def isNotify (e : Event) : Bool :=
  match e with
  | .notify _ => true
  | _ => false

/-- The status persisted by a ledger-write event, if any. -/
def ledgerStatus (e : Event) : Option Status :=
  match e with
  | .ledgerWrite s => some s
  | _ => none

/-- A successful response whose single player is online
(personastate 1). -/
def onlineResp : SteamResponse := ⟨[⟨1⟩]⟩

/-- A successful response whose single player is offline
(personastate 0). -/
def offlineResp : SteamResponse := ⟨[⟨0⟩]⟩

/-- A successful response whose single player is away
(personastate 3). -/
def awayResp : SteamResponse := ⟨[⟨3⟩]⟩

/-- A successful response with no player record for the identity. -/
def emptyResp : SteamResponse := ⟨[]⟩

/-- Response for a given underlying status. -/
def respFor (s : Status) : SteamResponse :=
  match s with
  | .online => onlineResp
  | .offline => offlineResp

/-- A tick whose confirmation pair reads the stable status `s` twice,
with a successful database write. -/
def pairTick (s : Status) : TickInput :=
  ⟨some (respFor s), some (respFor s), "2025-03-01", "12:00:00 PM", true⟩

/-- Initial monitor state of the concrete scenarios: last observed
status offline, persisted record offline with empty history. -/
def scenarioStart : MonState := ⟨some .offline, ⟨.offline, []⟩⟩

/-- The spec's scenario: raw samples online, online, offline, offline,
online taken 2 s apart, each with a confirmation pair. -/
def scenarioTicks : List TickInput :=
  [pairTick .online, pairTick .online, pairTick .offline, pairTick .offline, pairTick .online]

/-- Monitor state whose last observed status is online. -/
def stOnline : MonState := ⟨some .online, ⟨.online, []⟩⟩

/-- A tick observing a stable online pair whose database write fails. -/
def dbFailTick : TickInput :=
  ⟨some onlineResp, some onlineResp, "2025-03-01", "12:00:00 PM", false⟩

theorem monitorStatusTick_first_error (st : MonState) (inp : TickInput) (e : String)
    (hf : fetchStatus inp.first = .error e) :
    monitorStatusTick st inp = (st, [.log monitorErrorLog]) := by
  simp only [monitorStatusTick, hf]

theorem monitorStatusTick_second_error (st : MonState) (inp : TickInput) (a : Status)
    (e : String) (hf : fetchStatus inp.first = .ok a) (hs : fetchStatus inp.second = .error e) :
    monitorStatusTick st inp = (st, [.log monitorErrorLog]) := by
  simp only [monitorStatusTick, hf, hs]

theorem monitorStatusTick_skip (st : MonState) (inp : TickInput) (a b : Status)
    (hf : fetchStatus inp.first = .ok a) (hs : fetchStatus inp.second = .ok b)
    (h : ¬(a = b ∧ st.lastKnownStatus ≠ some a)) :
    monitorStatusTick st inp = (st, []) := by
  simp only [monitorStatusTick, hf, hs, if_neg h]

theorem monitorStatusTick_confirm (st : MonState) (inp : TickInput) (s : Status)
    (hf : fetchStatus inp.first = .ok s) (hs : fetchStatus inp.second = .ok s)
    (hne : st.lastKnownStatus ≠ some s) (hdb : inp.dbOk = true) :
    monitorStatusTick st inp =
      (⟨some s, ⟨s, st.user.statusHistory ++ [⟨s, inp.date, inp.time⟩]⟩⟩,
       [.notify (if s = .offline then offlineMessage else onlineMessage), .ledgerWrite s]) := by
  simp [monitorStatusTick, hf, hs, hdb, hne]

theorem monitorStatusTick_confirm_dbFail (st : MonState) (inp : TickInput) (s : Status)
    (hf : fetchStatus inp.first = .ok s) (hs : fetchStatus inp.second = .ok s)
    (hne : st.lastKnownStatus ≠ some s) (hdb : inp.dbOk = false) :
    monitorStatusTick st inp =
      (⟨some s, st.user⟩,
       [.notify (if s = .offline then offlineMessage else onlineMessage),
        .log monitorErrorLog]) := by
  simp [monitorStatusTick, hf, hs, hdb, hne]

/-- C1: a transition is recorded (lastKnownStatus updated, history
appended, notification enqueued) by the confirmation-variant
`monitorStatus` only when the tick's two confirmation samples both
succeed, agree, and differ from `lastKnownStatus`; and a raw stream
that flickers with period one (every confirmation pair disagrees)
leaves the state untouched and produces no events at all. -/
theorem C1_transition_only_on_agreeing_pair :
    (∀ (st : MonState) (inp : TickInput),
      ((monitorStatusTick st inp).1 ≠ st ∨
        ∃ m, Event.notify m ∈ (monitorStatusTick st inp).2) →
      ∃ s, fetchStatus inp.first = .ok s ∧ fetchStatus inp.second = .ok s ∧
        st.lastKnownStatus ≠ some s)
  ∧ (∀ (st : MonState) (ticks : List TickInput),
      (∀ t ∈ ticks, ∃ a b, fetchStatus t.first = .ok a ∧ fetchStatus t.second = .ok b ∧ a ≠ b) →
      runTicks st ticks = (st, [])) := by
  constructor
  · intro st inp h
    cases hf : fetchStatus inp.first with
    | error e =>
      rw [monitorStatusTick_first_error st inp e hf] at h
      simp at h
    | ok a =>
      cases hs : fetchStatus inp.second with
      | error e =>
        rw [monitorStatusTick_second_error st inp a e hf hs] at h
        simp at h
      | ok b =>
        by_cases hc : a = b ∧ st.lastKnownStatus ≠ some a
        · obtain ⟨heq, hne2⟩ := hc
          subst heq
          exact ⟨a, rfl, rfl, hne2⟩
        · rw [monitorStatusTick_skip st inp a b hf hs hc] at h
          simp at h
  · intro st ticks hfl
    induction ticks generalizing st with
    | nil => rfl
    | cons t rest ih =>
      obtain ⟨a, b, ha, hb, hab⟩ := hfl t (List.mem_cons_self t rest)
      have h1 : monitorStatusTick st t = (st, []) :=
        monitorStatusTick_skip st t a b ha hb (fun hc => hab hc.1)
      have h2 := ih st (fun u hu => hfl u (List.mem_cons_of_mem t hu))
      simp [runTicks, h1, h2]

/-- A two-tick stream that flickers with period one: each confirmation
pair disagrees. -/
def flickerTicks : List TickInput :=
  [⟨some onlineResp, some offlineResp, "2025-03-01", "12:00:00 PM", true⟩,
   ⟨some offlineResp, some onlineResp, "2025-03-01", "12:00:02 PM", true⟩]

/-- C1 witness: the flicker stream of period one, run from the scenario
start state, records zero transitions. -/
theorem C1_transition_only_on_agreeing_pair_witness :
    runTicks scenarioStart flickerTicks = (scenarioStart, []) := by
  refine C1_transition_only_on_agreeing_pair.2 scenarioStart flickerTicks ?_
  intro t ht
  simp only [flickerTicks, List.mem_cons, List.not_mem_nil, or_false] at ht
  rcases ht with rfl | rfl
  · exact ⟨.online, .offline, rfl, rfl, by decide⟩
  · exact ⟨.offline, .online, rfl, rfl, by decide⟩

theorem runSends_chain (times : List Int) (g : GateState) :
    List.Chain' (fun a b : Int => COOLDOWN ≤ b - a)
      (g.lastMessageTime :: (runSends g times).2) := by
  induction times generalizing g with
  | nil => simp [runSends]
  | cons t rest ih =>
    by_cases h : t - g.lastMessageTime < COOLDOWN
    · simpa [runSends, sendTelegramMessage, h] using ih g
    · have hch := ih ⟨t⟩
      simp only [runSends, sendTelegramMessage, if_neg h, if_true] at hch ⊢
      exact List.chain'_cons.mpr ⟨not_lt.mp h, hch⟩

/-- C2 counterexample: the `sendTelegramMessage` of the
confirmation-variant draft (server.js lines 71-82) has its cooldown
check commented out, so two sends one millisecond apart are both
dispatched: the dispatched trace for attempts at 40000 and 40001 is
[40000, 40001], whose gap is below `COOLDOWN`, and the dropped-send
clause fails too since every call overwrites `lastMessageTime`. -/
theorem C2_ungated_sender_cex :
    (runSendsNoGate ⟨0⟩ [40000, 40001]).2 = [40000, 40001]
  ∧ ¬ List.Chain' (fun a b : Int => COOLDOWN ≤ b - a) (runSendsNoGate ⟨0⟩ [40000, 40001]).2
  ∧ sendTelegramMessageNoGate ⟨40000⟩ 40001 = (⟨40001⟩, true) := by
  refine ⟨rfl, ?_, rfl⟩
  intro hch
  have h1 : (runSendsNoGate (⟨0⟩ : GateState) [40000, 40001]).2 = [40000, 40001] := rfl
  rw [h1] at hch
  exact absurd (List.chain'_cons.mp hch).1 (by decide)

/-- C2 amended: for the rate-limited `sendTelegramMessage` variant
(server.js lines 416-427 and 622-635), any two consecutively dispatched
notifications are at least `COOLDOWN` milliseconds apart, for any burst
of attempts; and an attempt made less than `COOLDOWN` after the last
dispatch is dropped silently, leaving `lastMessageTime` unchanged. -/
theorem C2_cooldown_for_gated_sender :
    (∀ (g : GateState) (times : List Int),
      List.Chain' (fun a b : Int => COOLDOWN ≤ b - a) (runSends g times).2)
  ∧ (∀ (g : GateState) (now : Int), now - g.lastMessageTime < COOLDOWN →
      sendTelegramMessage g now = (g, false)) := by
  constructor
  · intro g times
    exact (runSends_chain times g).tail
  · intro g now h
    simp [sendTelegramMessage, h]

/-- C2 amended witness: a concrete burst through the gated sender
keeps its dispatched notifications `COOLDOWN` apart, and the attempt at
40001 right after a dispatch at 40000 is dropped without touching
`lastMessageTime`. -/
theorem C2_cooldown_for_gated_sender_witness :
    List.Chain' (fun a b : Int => COOLDOWN ≤ b - a)
      (runSends ⟨0⟩ [40000, 40001, 80000]).2
  ∧ sendTelegramMessage ⟨40000⟩ 40001 = (⟨40000⟩, false) :=
  ⟨C2_cooldown_for_gated_sender.1 ⟨0⟩ [40000, 40001, 80000],
   C2_cooldown_for_gated_sender.2 ⟨40000⟩ 40001 (by decide)⟩

/-- C3 counterexample: in the confirmation-variant `monitorStatus`
(server.js lines 164-182) the call of `sendTelegramMessage` is made
before the database update is started, so for a confirmed
offline-to-online transition the tick's event trace, in program order,
is the notification dispatch attempt followed by the ledger write — the
write does not happen before the dispatch is attempted. -/
theorem C3_notify_precedes_write_cex :
    (monitorStatusTick scenarioStart (pairTick .online)).2 =
      [.notify onlineMessage, .ledgerWrite .online] := by
  decide

/-- C3 amended: in the multi-user `monitorStatus` variant (server.js
lines 442-469) a transition's ledger write does happen before its
notification dispatch is attempted: every per-user tick produces either
no events, a single error log, or a ledger write followed by the
notification; in the confirmation variant (lines 164-182) the order is
reversed. -/
theorem C3_write_before_notify_in_multiuser_variant :
    ∀ (user : UserRecord) (username : String) (resp : Option SteamResponse)
      (date time : String) (dbOk : Bool),
      (monitorUserTick user username resp date time dbOk).2 = [] ∨
      (∃ m, (monitorUserTick user username resp date time dbOk).2 = [.log m]) ∨
      (∃ s m, (monitorUserTick user username resp date time dbOk).2 =
          [.ledgerWrite s, .notify m] ∧
        (monitorUserTick user username resp date time dbOk).1.statusHistory =
          user.statusHistory ++ [⟨s, date, time⟩]) := by
  intro user username resp date time dbOk
  cases resp with
  | none => exact Or.inr (Or.inl ⟨monitorErrorLog, rfl⟩)
  | some r =>
    cases hp : r.players.head? with
    | none => exact Or.inl (by simp [monitorUserTick, hp])
    | some p =>
      by_cases hc : user.steamStatus ≠ personastateToStatus p.personastate
      · cases hdb : dbOk with
        | true =>
          refine Or.inr (Or.inr ⟨personastateToStatus p.personastate,
            userTransitionMessage username (personastateToStatus p.personastate) date time,
            ?_, ?_⟩) <;> simp [monitorUserTick, hp, hc]
        | false =>
          exact Or.inr (Or.inl ⟨monitorErrorLog, by simp [monitorUserTick, hp, hc]⟩)
      · exact Or.inl (by simp [monitorUserTick, hp, hc])

/-- C4 counterexample: the inner `fetchStatus` of the
confirmation-variant `monitorStatus` (server.js lines 153-158) maps a
response with no player record to `'offline'` rather than an explicit
absence, and such a tick is not skipped: from a last observed status of
online, two empty-player responses mutate the state and send an
offline notification. -/
theorem C4_missing_record_not_skipped_cex :
    fetchStatus (some emptyResp) = .ok .offline
  ∧ (monitorStatusTick stOnline ⟨some emptyResp, some emptyResp, "d", "t", true⟩).1 ≠ stOnline
  ∧ (monitorStatusTick stOnline ⟨some emptyResp, some emptyResp, "d", "t", true⟩).2 =
      [.notify offlineMessage, .ledgerWrite .offline] := by
  refine ⟨rfl, ?_, rfl⟩
  decide

/-- C4 amended: the single-sample variants check for a missing player
record explicitly (server.js lines 690-691 `if (!player) return;` and
lines 452-453 `if (!player) continue;`): a response with no player
record for the identity skips the tick with no state mutation and no
notification; in the confirmation variant's `fetchStatus` (lines
153-158) a missing record is instead mapped to offline and can be
recorded as a transition. -/
theorem C4_missing_record_skips_tick :
    (∀ (last : Option Status) (r : SteamResponse), r.players = [] →
      monitorStatusSingleTick last (some r) = (last, []))
  ∧ (∀ (user : UserRecord) (username : String) (r : SteamResponse)
      (date time : String) (dbOk : Bool), r.players = [] →
      monitorUserTick user username (some r) date time dbOk = (user, [])) := by
  constructor
  · intro last r hr
    simp [monitorStatusSingleTick, hr]
  · intro user username r date time dbOk hr
    simp [monitorUserTick, hr]

/-- C4 amended witness: a concrete empty-player response skips the tick
in both single-sample variants. -/
theorem C4_missing_record_skips_tick_witness :
    monitorStatusSingleTick (some .online) (some emptyResp) = (some .online, [])
  ∧ monitorUserTick ⟨.online, []⟩ "Tracked User" (some emptyResp) "2025-03-01"
      "12:00:00 PM" true = (⟨.online, []⟩, []) :=
  ⟨C4_missing_record_skips_tick.1 (some .online) emptyResp rfl,
   C4_missing_record_skips_tick.2 ⟨.online, []⟩ "Tracked User" emptyResp "2025-03-01"
     "12:00:00 PM" true rfl⟩

/-- C5: on the raw sample stream online, online, offline, offline,
online — one confirmation pair per tick, starting with last observed
status offline — the confirmed transition sequence is exactly online,
offline, online: the history gains those three entries in order, three
notifications are attempted, and the final observed status is online. -/
theorem C5_scenario_three_transitions :
    (runTicks scenarioStart scenarioTicks).1.user.statusHistory.map HistoryEntry.status =
      [.online, .offline, .online]
  ∧ (runTicks scenarioStart scenarioTicks).2.filterMap ledgerStatus =
      [.online, .offline, .online]
  ∧ ((runTicks scenarioStart scenarioTicks).2.filter isNotify).length = 3
  ∧ (runTicks scenarioStart scenarioTicks).1.lastKnownStatus = some .online := by
  refine ⟨rfl, rfl, rfl, rfl⟩

/-- C6: `startMonitoring` is idempotent: it is a no-op when a session
is already active, a second start right after a first changes nothing,
and from an inactive state with no scheduled loop a start (or a double
start) leaves exactly one scheduled polling loop. -/
theorem C6_start_monitoring_idempotent :
    (∀ s : SchedState, s.isMonitoringActive = true → startMonitoring s = s)
  ∧ (∀ s : SchedState, startMonitoring (startMonitoring s) = startMonitoring s)
  ∧ (∀ s : SchedState, s.isMonitoringActive = false → s.intervals = 0 →
      (startMonitoring s).isMonitoringActive = true ∧
      (startMonitoring s).intervals = 1 ∧
      (startMonitoring (startMonitoring s)).intervals = 1) := by
  refine ⟨?_, ?_, ?_⟩
  · intro s h
    simp [startMonitoring, h]
  · intro s
    by_cases h : s.isMonitoringActive <;>
      simp [startMonitoring, stopMonitoring, h]
  · intro s h1 h2
    simp [startMonitoring, stopMonitoring, h1, h2]

/-- C6 witness: from the quiescent boot state, one start and a double
start both leave one active loop, and a start on the active state is a
no-op. -/
theorem C6_start_monitoring_idempotent_witness :
    startMonitoring (⟨true, 1⟩ : SchedState) = ⟨true, 1⟩
  ∧ startMonitoring (startMonitoring (⟨false, 0⟩ : SchedState)) =
      startMonitoring (⟨false, 0⟩ : SchedState)
  ∧ (startMonitoring (⟨false, 0⟩ : SchedState)).intervals = 1 :=
  ⟨C6_start_monitoring_idempotent.1 ⟨true, 1⟩ rfl,
   C6_start_monitoring_idempotent.2.1 ⟨false, 0⟩,
   (C6_start_monitoring_idempotent.2.2 ⟨false, 0⟩ rfl rfl).2.1⟩

theorem monitorStatusTick_history (st : MonState) (inp : TickInput) (hdb : inp.dbOk = true) :
    ∃ tail : List HistoryEntry,
      (monitorStatusTick st inp).1.user.statusHistory = st.user.statusHistory ++ tail ∧
      tail.map HistoryEntry.status = (monitorStatusTick st inp).2.filterMap ledgerStatus ∧
      tail.length = ((monitorStatusTick st inp).2.filter isNotify).length := by
  cases hf : fetchStatus inp.first with
  | error e =>
    rw [monitorStatusTick_first_error st inp e hf]
    exact ⟨[], by simp [ledgerStatus, isNotify]⟩
  | ok a =>
    cases hs : fetchStatus inp.second with
    | error e =>
      rw [monitorStatusTick_second_error st inp a e hf hs]
      exact ⟨[], by simp [ledgerStatus, isNotify]⟩
    | ok b =>
      by_cases hc : a = b ∧ st.lastKnownStatus ≠ some a
      · obtain ⟨heq, hne⟩ := hc
        subst heq
        rw [monitorStatusTick_confirm st inp a hf hs hne hdb]
        exact ⟨[⟨a, inp.date, inp.time⟩], by simp [ledgerStatus, isNotify]⟩
      · rw [monitorStatusTick_skip st inp a b hf hs hc]
        exact ⟨[], by simp [ledgerStatus, isNotify]⟩

/-- C7: the status history is append-only.  Over any run of the
confirmation-variant polling loop whose database writes succeed, the
final history is the initial history with a tail appended (so its
length never decreases and no existing entry is rewritten), the tail's
statuses are exactly the ledger writes of the run in confirmation
order, and its length equals the number of notifications, i.e. each
confirmed transition contributes exactly one entry.  The multi-user
variant likewise only ever appends to a user's history. -/
theorem C7_history_append_only :
    (∀ (st : MonState) (ticks : List TickInput), (∀ t ∈ ticks, t.dbOk = true) →
      ∃ tail : List HistoryEntry,
        (runTicks st ticks).1.user.statusHistory = st.user.statusHistory ++ tail ∧
        tail.map HistoryEntry.status = (runTicks st ticks).2.filterMap ledgerStatus ∧
        tail.length = ((runTicks st ticks).2.filter isNotify).length)
  ∧ (∀ (user : UserRecord) (username : String) (resp : Option SteamResponse)
      (date time : String) (dbOk : Bool),
      ∃ tail : List HistoryEntry,
        (monitorUserTick user username resp date time dbOk).1.statusHistory =
          user.statusHistory ++ tail) := by
  constructor
  · intro st ticks hdb
    induction ticks generalizing st with
    | nil => exact ⟨[], by simp [runTicks]⟩
    | cons t rest ih =>
      obtain ⟨tail1, h1, h2, h3⟩ :=
        monitorStatusTick_history st t (hdb t (List.mem_cons_self t rest))
      obtain ⟨tail2, g1, g2, g3⟩ :=
        ih (monitorStatusTick st t).1 (fun u hu => hdb u (List.mem_cons_of_mem t hu))
      refine ⟨tail1 ++ tail2, ?_, ?_, ?_⟩
      · show (runTicks (monitorStatusTick st t).1 rest).1.user.statusHistory = _
        rw [g1, h1, List.append_assoc]
      · show _ = ((monitorStatusTick st t).2 ++ (runTicks (monitorStatusTick st t).1 rest).2).filterMap ledgerStatus
        rw [List.map_append, List.filterMap_append, h2, g2]
      · show _ = (((monitorStatusTick st t).2 ++ (runTicks (monitorStatusTick st t).1 rest).2).filter isNotify).length
        rw [List.length_append, List.filter_append, List.length_append, h3, g3]
  · intro user username resp date time dbOk
    cases resp with
    | none => exact ⟨[], by simp [monitorUserTick]⟩
    | some r =>
      cases hp : r.players.head? with
      | none => exact ⟨[], by simp [monitorUserTick, hp]⟩
      | some p =>
        by_cases hc : user.steamStatus ≠ personastateToStatus p.personastate
        · cases dbOk with
          | true =>
            exact ⟨[⟨personastateToStatus p.personastate, date, time⟩],
              by simp [monitorUserTick, hp, hc]⟩
          | false => exact ⟨[], by simp [monitorUserTick, hp, hc]⟩
        · exact ⟨[], by simp [monitorUserTick, hp, hc]⟩

/-- C7 witness: over the concrete five-tick scenario the history grows
by exactly the three confirmed transitions, in order. -/
theorem C7_history_append_only_witness :
    ∃ tail : List HistoryEntry,
      (runTicks scenarioStart scenarioTicks).1.user.statusHistory =
        scenarioStart.user.statusHistory ++ tail ∧
      tail.map HistoryEntry.status =
        (runTicks scenarioStart scenarioTicks).2.filterMap ledgerStatus ∧
      tail.length = ((runTicks scenarioStart scenarioTicks).2.filter isNotify).length :=
  C7_history_append_only.1 scenarioStart scenarioTicks (by decide)

/-- C8: every failure inside one polling tick is contained in that
tick.  The tick body of the confirmation variant is a total function
whose catch swallows network and persistence errors, so a fired tick
never changes the scheduler state (the polling loop stays scheduled and
active) for any input, failing or not; and when a sample's network call
throws, the tick leaves the whole state unchanged and produces nothing
but an error log — no notification and no ledger write. -/
theorem C8_tick_failures_contained :
    (∀ (s : ServerState) (inp : TickInput), (serverTick s inp).1.sched = s.sched)
  ∧ (∀ (s : ServerState) (inp : TickInput), inp.first = none ∨ inp.second = none →
      (serverTick s inp).1 = s ∧
      ∀ e ∈ (serverTick s inp).2, ∃ m, e = Event.log m) := by
  constructor
  · intro s inp
    rfl
  · intro s inp hfail
    have hlog : monitorStatusTick s.mon inp = (s.mon, [.log monitorErrorLog]) := by
      rcases hfail with hfst | hsnd
      · exact monitorStatusTick_first_error s.mon inp "axios error" (by rw [hfst]; rfl)
      · cases hf : fetchStatus inp.first with
        | error e => exact monitorStatusTick_first_error s.mon inp e hf
        | ok a =>
          exact monitorStatusTick_second_error s.mon inp a "axios error" hf (by rw [hsnd]; rfl)
    constructor
    · show (⟨s.sched, (monitorStatusTick s.mon inp).1⟩ : ServerState) = s
      rw [hlog]
    · show ∀ e ∈ (monitorStatusTick s.mon inp).2, ∃ m, e = Event.log m
      rw [hlog]
      simp

/-- C8 witness: a tick whose first sample's network call throws leaves
the running server state untouched and only logs. -/
theorem C8_tick_failures_contained_witness :
    (serverTick ⟨⟨true, 1⟩, scenarioStart⟩ ⟨none, some onlineResp, "d", "t", true⟩).1.sched
      = (⟨true, 1⟩ : SchedState)
  ∧ (serverTick ⟨⟨true, 1⟩, scenarioStart⟩ ⟨none, some onlineResp, "d", "t", true⟩).1
      = ⟨⟨true, 1⟩, scenarioStart⟩
  ∧ ∀ e ∈ (serverTick ⟨⟨true, 1⟩, scenarioStart⟩ ⟨none, some onlineResp, "d", "t", true⟩).2,
      ∃ m, e = Event.log m :=
  ⟨C8_tick_failures_contained.1 ⟨⟨true, 1⟩, scenarioStart⟩ ⟨none, some onlineResp, "d", "t", true⟩,
   (C8_tick_failures_contained.2 ⟨⟨true, 1⟩, scenarioStart⟩ ⟨none, some onlineResp, "d", "t", true⟩
     (Or.inl rfl)).1,
   (C8_tick_failures_contained.2 ⟨⟨true, 1⟩, scenarioStart⟩ ⟨none, some onlineResp, "d", "t", true⟩
     (Or.inl rfl)).2⟩

/-- C9: what the code does at the failing input.  From last observed
status offline, a tick confirms an online transition but the database
write throws: the confirmation variant has already advanced
`lastKnownStatus` and already attempted the notification; the failure
is merely logged — there is no retry, no alert, no ledger write, and
the persisted record is left behind the in-memory state.  The next tick
observing the same stable online pair then does nothing at all, so the
transition is never persisted. -/
theorem C9_persistence_failure_drift :
    (monitorStatusTick scenarioStart dbFailTick).1.lastKnownStatus = some .online
  ∧ (monitorStatusTick scenarioStart dbFailTick).1.user = scenarioStart.user
  ∧ (monitorStatusTick scenarioStart dbFailTick).2 =
      [.notify onlineMessage, .log monitorErrorLog]
  ∧ (monitorStatusTick (monitorStatusTick scenarioStart dbFailTick).1 (pairTick .online)) =
      ((monitorStatusTick scenarioStart dbFailTick).1, []) := by
  refine ⟨rfl, rfl, rfl, rfl⟩

/-- C10: every draft maps the raw presence code to ONLINE exactly when
`personastate` equals 1; every other code — including busy (2), away
(3) and snooze (4) — is mapped to OFFLINE, and the sampler returns that
mapping of the first player of a successful response.  Consequently a
tracked identity whose state goes from active to away is recorded and
notified as an offline transition. -/
theorem C10_online_iff_personastate_one :
    (∀ n : Nat, personastateToStatus n = .online ↔ n = 1)
  ∧ (∀ (p : SteamPlayer) (ps : List SteamPlayer),
      fetchStatus (some ⟨p :: ps⟩) = .ok (personastateToStatus p.personastate))
  ∧ personastateToStatus 2 = .offline
  ∧ personastateToStatus 3 = .offline
  ∧ personastateToStatus 4 = .offline
  ∧ (monitorStatusTick stOnline ⟨some awayResp, some awayResp, "d", "t", true⟩).2 =
      [.notify offlineMessage, .ledgerWrite .offline]
  ∧ (monitorStatusTick stOnline ⟨some awayResp, some awayResp, "d", "t", true⟩).1.lastKnownStatus
      = some .offline := by
  refine ⟨?_, ?_, rfl, rfl, rfl, rfl, rfl⟩
  · intro n
    by_cases h : n = 1 <;> simp [personastateToStatus, h]
  · intro p ps
    rfl

end StatusTracker
